import Mathlib

/-!
Verification of the Bias-SGD collaborative filtering vertex program
(toolkits/collaborative_filtering/biassgd.cpp).

The development is a shallow embedding over exact rational arithmetic:
machine doubles and floats are modelled as rationals, Eigen vectors as
lists of rationals, and std::sqrt as Real.sqrt.  Fatal assertions from
the graphlab ASSERT family are modelled with Except.error; the plain
C assert statements inside gather and apply, which are defensive checks
on states that regular runs never reach, are modelled as separate
predicates so that the state transformation itself stays total.
-/

set_option maxHeartbeats 1000000

namespace BiasSGD

/-- Componentwise sum of two vectors (Eigen operator+= on vectors). -/
def vadd (a b : List ℚ) : List ℚ := List.zipWith (fun x y => x + y) a b

/-- Componentwise difference of two vectors. -/
def vsub (a b : List ℚ) : List ℚ := List.zipWith (fun x y => x - y) a b

/-- Scalar multiple of a vector. -/
def smul (c : ℚ) (v : List ℚ) : List ℚ := v.map (fun x => c * x)

/-- Dot product of two vectors (Eigen dot). -/
def dot (a b : List ℚ) : ℚ := (List.zipWith (fun x y => x * y) a b).sum

/-- Vertex payload of biassgd.cpp: update counter, latent vector, auxiliary
weight vector and bias term. -/
structure vertex_data where
  nupdates : ℕ
  pvec : List ℚ
  weight : List ℚ
  bias : ℚ
deriving DecidableEq

/-- Engine-level view of a vertex: its id, its payload and its degrees. -/
structure vertex_type where
  id : ℕ
  data : vertex_data
  num_in_edges : ℕ
  num_out_edges : ℕ
deriving DecidableEq

/-- Role of an edge observation (edge_data::data_role_type). -/
inductive data_role_type where
  | TRAIN
  | VALIDATE
  | PREDICT
deriving DecidableEq

/-- Edge payload: the observed value and the role. -/
structure edge_data where
  obs : ℚ
  role : data_role_type
deriving DecidableEq

/-- Engine-level view of an edge: both endpoints and the payload. -/
structure edge_type where
  source : vertex_type
  target : vertex_type
  data : edge_data
deriving DecidableEq

/-- Process-wide configuration statics of biassgd_vertex_program. -/
structure Config where
  NLATENT : ℕ
  LAMBDA : ℚ
  GAMMA : ℚ
  MAXVAL : ℚ
  MINVAL : ℚ
  STEP_DEC : ℚ
  MAX_UPDATES : ℕ
  GLOBAL_MEAN : ℚ
deriving DecidableEq

/-- Given a vertex and an edge, return the other endpoint of the edge
(get_other_vertex). -/
def get_other_vertex (edge : edge_type) (vertex : vertex_type) : vertex_type :=
  if vertex.id = edge.source.id then edge.target else edge.source

/-- Gather accumulator (gather_type): a latent-vector step together with a
bias step.  A zero-length vector is the "no contribution yet" sentinel. -/
structure gather_type where
  pvec : List ℚ
  bias : ℚ
deriving DecidableEq

/-- Accumulator combination (gather_type::operator+=).  When the left side
is empty the right side is copied wholesale, bias included. -/
def gather_type.add (a other : gather_type) : gather_type :=
  if a.pvec.length = 0 then other
  else if other.pvec.length = 0 then a
  else { pvec := vadd a.pvec other.pvec, bias := a.bias + other.bias }

/-- Result of one gather invocation: the returned accumulator, the optional
signal sent to the other endpoint (its id and the message payload), and the
locally cached copies of both endpoints after the in-place mutation that the
source marks as a hack. -/
structure GatherResult where
  acc : gather_type
  signal : Option (ℕ × gather_type)
  myCache : vertex_type
  otherCache : vertex_type
deriving DecidableEq

/-- The gather function (biassgd_vertex_program::gather, lines 264-310). -/
def gather (cfg : Config) (vertex : vertex_type) (edge : edge_type) : GatherResult :=
  if vertex.num_in_edges = 0 then
    let other_vertex := get_other_vertex edge vertex
    let pred0 := cfg.GLOBAL_MEAN + edge.source.data.bias + edge.target.data.bias +
      dot vertex.data.pvec other_vertex.data.pvec
    let pred := max (min pred0 cfg.MAXVAL) cfg.MINVAL
    let err := pred - edge.data.obs
    if edge.data.role = data_role_type.TRAIN then
      let bias := -cfg.GAMMA * (err - cfg.LAMBDA * 0)
      let other_bias := -cfg.GAMMA * (err - cfg.LAMBDA * 0)
      let delta := smul (-cfg.GAMMA)
        (vsub (smul err other_vertex.data.pvec) (smul cfg.LAMBDA vertex.data.pvec))
      let other_delta := smul (-cfg.GAMMA)
        (vsub (smul err vertex.data.pvec) (smul cfg.LAMBDA other_vertex.data.pvec))
      let my_vertex : vertex_type :=
        { vertex with data :=
          { vertex.data with bias := vertex.data.bias + bias,
                             pvec := vadd vertex.data.pvec delta } }
      let other_cached : vertex_type :=
        { other_vertex with data :=
          { other_vertex.data with bias := other_vertex.data.bias + other_bias,
                                   pvec := vadd other_vertex.data.pvec other_delta } }
      { acc := { pvec := delta, bias := bias },
        signal := if other_vertex.data.nupdates < cfg.MAX_UPDATES then
            some (other_vertex.id, { pvec := other_delta, bias := other_bias })
          else none,
        myCache := my_vertex,
        otherCache := other_cached }
    else
      { acc := { pvec := [], bias := 0 }, signal := none,
        myCache := vertex, otherCache := other_vertex }
  else
    { acc := { pvec := [], bias := 0 }, signal := none,
      myCache := vertex, otherCache := get_other_vertex edge vertex }

/-- Message-receive hook (biassgd_vertex_program::init): the new value of the
per-vertex pending-message slot pmsg. -/
def init (vertex : vertex_type) (pmsg msg : gather_type) : gather_type :=
  if 0 < vertex.num_in_edges then msg else pmsg

/-- The apply function (biassgd_vertex_program::apply): the updated vertex
payload. -/
def apply (vertex : vertex_type) (pmsg sum : gather_type) : vertex_data :=
  let vdata := vertex.data
  let vdata1 :=
    if 0 < sum.pvec.length then
      { vdata with pvec := vadd vdata.pvec sum.pvec }
    else if 0 < pmsg.pvec.length then
      { vdata with pvec := vadd vdata.pvec pmsg.pvec, bias := vdata.bias + pmsg.bias }
    else vdata
  { vdata1 with nupdates := vdata1.nupdates + 1 }

/-- Defensive assertions inside apply (lines 327 and 332): a non-empty gather
sum may only appear at vertices without incoming edges, and a consumed
message only at vertices without outgoing edges. -/
def apply_asserts (vertex : vertex_type) (pmsg sum : gather_type) : Prop :=
  (0 < sum.pvec.length → vertex.num_in_edges = 0) ∧
  (sum.pvec.length = 0 → 0 < pmsg.pvec.length → vertex.num_out_edges = 0)

/-- Scatter (biassgd_vertex_program::scatter): the signal it emits, if any. -/
def scatter (cfg : Config) (vertex : vertex_type) (edge : edge_type) :
    Option (ℕ × gather_type) :=
  if edge.data.role = data_role_type.TRAIN then
    let other_vertex := get_other_vertex edge vertex
    if other_vertex.data.nupdates < cfg.MAX_UPDATES then
      some (other_vertex.id, { pvec := List.replicate cfg.NLATENT 0, bias := 0 })
    else none
  else none

/-- Activation seeding (biassgd_vertex_program::signal_left): the signal it
emits, if any. -/
def signal_left (cfg : Config) (vertex : vertex_type) : Option (ℕ × gather_type) :=
  if 0 < vertex.num_out_edges then
    some (vertex.id, { pvec := List.replicate cfg.NLATENT 0, bias := 0 })
  else none

/-- Clamped prediction used by the error extraction (extract_l2_error,
lines 418-423). -/
def l2_prediction (cfg : Config) (edge : edge_type) : ℚ :=
  max cfg.MINVAL (min cfg.MAXVAL
    (cfg.GLOBAL_MEAN + edge.source.data.bias + edge.target.data.bias +
      dot edge.source.data.pvec edge.target.data.pvec))

/-- Squared residual of one edge (extract_l2_error, line 424). -/
def extract_l2_error (cfg : Config) (edge : edge_type) : ℚ :=
  (edge.data.obs - l2_prediction cfg edge) * (edge.data.obs - l2_prediction cfg edge)

/-- Error aggregator record. -/
structure error_aggregator where
  train_error : ℚ
  validation_error : ℚ
  ntrain : ℕ
  nvalidation : ℕ
deriving DecidableEq

/-- Per-edge map step of the error aggregator (error_aggregator::map). -/
def error_aggregator.map (cfg : Config) (edge : edge_type) : error_aggregator :=
  if edge.data.role = data_role_type.TRAIN then
    { train_error := extract_l2_error cfg edge, validation_error := 0,
      ntrain := 1, nvalidation := 0 }
  else if edge.data.role = data_role_type.VALIDATE then
    { train_error := 0, validation_error := extract_l2_error cfg edge,
      ntrain := 0, nvalidation := 1 }
  else
    { train_error := 0, validation_error := 0, ntrain := 0, nvalidation := 0 }

/-- Aggregator combination (error_aggregator::operator+=). -/
def error_aggregator.add (a other : error_aggregator) : error_aggregator :=
  { train_error := a.train_error + other.train_error,
    validation_error := a.validation_error + other.validation_error,
    ntrain := a.ntrain + other.ntrain,
    nvalidation := a.nvalidation + other.nvalidation }

/-- Report printed by finalize: the train RMSE and, when validation samples
exist, the validation RMSE. -/
structure Report where
  train_rmse : ℝ
  validation_rmse : Option ℝ

/-- Finalize step of the convergence monitor (error_aggregator::finalize,
lines 396-411).  The first argument is the value of the global call counter
iter before the invocation; the configuration carries the mutable learning
rate GAMMA.  The fatal ASSERT_GT on the training count is modelled as
Except.error. -/
noncomputable def finalize (iter : ℕ) (cfg : Config) (agg : error_aggregator) :
    Except Unit ((ℕ × Config) × Option Report) :=
  let iter1 := iter + 1
  if iter1 % 2 = 0 then Except.ok ((iter1, cfg), none)
  else if agg.ntrain = 0 then Except.error ()
  else
    Except.ok ((iter1, { cfg with GAMMA := cfg.GAMMA * cfg.STEP_DEC }),
      some { train_rmse := Real.sqrt ((agg.train_error / (agg.ntrain : ℚ) : ℚ) : ℝ),
             validation_rmse :=
               if 0 < agg.nvalidation then
                 some (Real.sqrt ((agg.validation_error / (agg.nvalidation : ℚ) : ℚ) : ℝ))
               else none })

/-- Line emitted by prediction_saver::save_edge: the source id, the possibly
remapped target id, and the predicted value. -/
def save_edge (remap : Bool) (edge : edge_type) : ℕ × ℤ × ℚ :=
  (edge.source.id,
   if remap then -(edge.target.id : ℤ) - 2 else (edge.target.id : ℤ),
   dot edge.source.data.pvec edge.target.data.pvec)

/-- Whitespace in the boost ascii::space sense. -/
def isSpaceChar (c : Char) : Bool :=
  c = ' ' || c = '\t' || c = '\n' || c = '\r' || c = '\x0b' || c = '\x0c'

/-- Drop leading whitespace (the skipper of phrase_parse). -/
def skipWS (s : List Char) : List Char := s.dropWhile isSpaceChar

/-- Numeric value of a decimal digit string. -/
def natOfDigits (ds : List Char) : ℕ :=
  ds.foldl (fun a c => 10 * a + (c.toNat - 48)) 0

/-- Parse one or more decimal digits (qi::ulong_). -/
def parseULong (s : List Char) : Option (ℕ × List Char) :=
  let ds := s.takeWhile Char.isDigit
  if ds.length = 0 then none
  else some (natOfDigits ds, s.dropWhile Char.isDigit)

/-- Consume an optional comma (the optional qi::char_ in the grammar). -/
def skipComma (s : List Char) : List Char :=
  match s with
  | ',' :: r => r
  | _ => s

/-- Parse the optional exponent part of a floating literal. -/
def parseExp (v : ℚ) (s : List Char) : Option (ℚ × List Char) :=
  match s with
  | c :: r =>
    if c = 'e' || c = 'E' then
      let p : ℤ × List Char :=
        match r with
        | '+' :: r2 => (1, r2)
        | '-' :: r2 => (-1, r2)
        | _ => (1, r)
      match parseULong p.2 with
      | some (e, r2) => some (v * (10 : ℚ) ^ (p.1 * (e : ℤ)), r2)
      | none => none
    else some (v, s)
  | [] => some (v, [])

/-- Parse a decimal floating literal (qi::float_; the inf and nan literals
are not modelled). -/
def parseFloat (s : List Char) : Option (ℚ × List Char) :=
  let p : ℚ × List Char :=
    match s with
    | '+' :: r => (1, r)
    | '-' :: r => (-1, r)
    | _ => (1, s)
  let ip := p.2.takeWhile Char.isDigit
  let s2 := p.2.dropWhile Char.isDigit
  match s2 with
  | '.' :: r =>
    let fp := r.takeWhile Char.isDigit
    let s3 := r.dropWhile Char.isDigit
    if ip.length = 0 ∧ fp.length = 0 then none
    else parseExp (p.1 * ((natOfDigits ip : ℚ) + (natOfDigits fp : ℚ) / (10 : ℚ) ^ fp.length)) s3
  | _ =>
    if ip.length = 0 then none
    else parseExp (p.1 * (natOfDigits ip : ℚ)) s2

/-- Parse of one input line according to the loader grammar: an unsigned
integer, an optional comma, an unsigned integer, then optionally an optional
comma followed by a float; whitespace is skipped between tokens, a failed
optional tail backtracks leaving the observation at its default 0, and
trailing input is ignored as phrase_parse does not require full consumption. -/
def parseLine (s : List Char) : Option (ℕ × ℕ × ℚ) :=
  match parseULong (skipWS s) with
  | none => none
  | some (source_id, s1) =>
    match parseULong (skipWS (skipComma (skipWS s1))) with
    | none => none
    | some (target_id, s2) =>
      match parseFloat (skipWS (skipComma (skipWS s2))) with
      | some (obs, _) => some (source_id, target_id, obs)
      | none => some (source_id, target_id, 0)

/-- The loaded graph: the list of edges added so far. -/
structure GraphState where
  edges : List (ℕ × ℕ × edge_data)
deriving DecidableEq

/-- Modulus of the 32-bit vertex id space. -/
def idMod : ℕ := 4294967296

/-- The graph loader (graph_loader, lines 458-491).  The fatal assertion on
an empty line is modelled as Except.error; a parse failure returns false and
leaves the graph unchanged; a successful parse appends one edge whose role is
derived from the file name suffix, remapping the target id through unsigned
negation when requested. -/
def graph_loader (remap : Bool) (filename line : String) (graph : GraphState) :
    Except Unit (Bool × GraphState) :=
  if line = "" then Except.error ()
  else
    let role : data_role_type :=
      if filename.endsWith ".validate" then data_role_type.VALIDATE
      else if filename.endsWith ".predict" then data_role_type.PREDICT
      else data_role_type.TRAIN
    match parseLine line.data with
    | none => Except.ok (false, graph)
    | some (source_id, target_id, obs) =>
      let tid := if remap then (idMod - (target_id + 2) % idMod) % idMod else target_id
      Except.ok (true,
        { graph with edges := graph.edges ++ [(source_id, tid, { obs := obs, role := role })] })

/-- Prediction of the claim formula for ordered endpoints v and w,
following the words of the specification. -/
def specPrediction (cfg : Config) (v w : vertex_type) : ℚ :=
  max (min (cfg.GLOBAL_MEAN + v.data.bias + w.data.bias + dot v.data.pvec w.data.pvec)
    cfg.MAXVAL) cfg.MINVAL

/-- Residual of the claim formula: prediction minus observed value. -/
def specErr (cfg : Config) (v w : vertex_type) (edge : edge_type) : ℚ :=
  specPrediction cfg v w - edge.data.obs

lemma vadd_comm (a : List ℚ) : ∀ b : List ℚ, vadd a b = vadd b a := by
  induction a with
  | nil => intro b; cases b <;> rfl
  | cons x xs ih =>
    intro b
    cases b with
    | nil => rfl
    | cons y ys =>
      show (x + y) :: vadd xs ys = (y + x) :: vadd ys xs
      rw [ih ys, add_comm]

lemma vadd_assoc (a : List ℚ) : ∀ b c : List ℚ, vadd (vadd a b) c = vadd a (vadd b c) := by
  induction a with
  | nil => intro b c; rfl
  | cons x xs ih =>
    intro b c
    cases b with
    | nil => rfl
    | cons y ys =>
      cases c with
      | nil => rfl
      | cons z zs =>
        show (x + y + z) :: vadd (vadd xs ys) zs = (x + (y + z)) :: vadd xs (vadd ys zs)
        rw [ih ys zs, add_assoc]

lemma vadd_cons (x y : ℚ) (xs ys : List ℚ) :
    vadd (x :: xs) (y :: ys) = (x + y) :: vadd xs ys := rfl

lemma gather_add_assoc (a b c : gather_type) :
    gather_type.add (gather_type.add a b) c = gather_type.add a (gather_type.add b c) := by
  obtain ⟨ap, ab⟩ := a
  obtain ⟨bp, bb⟩ := b
  obtain ⟨cp, cb⟩ := c
  cases ap with
  | nil => simp [gather_type.add]
  | cons x xs =>
    cases bp with
    | nil => simp [gather_type.add]
    | cons y ys =>
      cases cp with
      | nil => simp [gather_type.add, vadd]
      | cons z zs => simp [gather_type.add, vadd_cons, vadd_assoc, add_assoc]

/-- Claim C2 as stated is false: combination of two accumulators with empty
delta but different bias values is not commutative, and the empty accumulator
is not a right identity on such an accumulator, because an empty left operand
is overwritten wholesale with the right operand, bias included. -/
theorem gather_add_counterexample :
    gather_type.add { pvec := [], bias := 1 } { pvec := [], bias := 2 } ≠
      gather_type.add { pvec := [], bias := 2 } { pvec := [], bias := 1 } ∧
    gather_type.add { pvec := [], bias := 1 } { pvec := [], bias := 0 } ≠
      { pvec := [], bias := 1 } := by
  decide

/-- Claim C2 (amended): accumulator combination is associative for all
accumulators, and on accumulators that are well formed, meaning the bias is
zero whenever the delta is empty, it is commutative with the empty
accumulator as a two-sided identity; combining two non-empty accumulators
sums the delta componentwise and sums the bias. -/
theorem gather_add_monoid (a b c : gather_type)
    (ha : a.pvec = [] → a.bias = 0) (hb : b.pvec = [] → b.bias = 0) :
    gather_type.add a b = gather_type.add b a ∧
    gather_type.add (gather_type.add a b) c = gather_type.add a (gather_type.add b c) ∧
    gather_type.add a { pvec := [], bias := 0 } = a ∧
    gather_type.add { pvec := [], bias := 0 } a = a ∧
    (a.pvec ≠ [] → b.pvec ≠ [] →
      gather_type.add a b = { pvec := vadd a.pvec b.pvec, bias := a.bias + b.bias }) := by
  refine ⟨?_, gather_add_assoc a b c, ?_, ?_, ?_⟩
  · obtain ⟨ap, ab⟩ := a
    obtain ⟨bp, bb⟩ := b
    cases ap with
    | nil =>
      cases bp with
      | nil => simp at ha hb; simp [gather_type.add, ha, hb]
      | cons y ys => simp [gather_type.add]
    | cons x xs =>
      cases bp with
      | nil => simp [gather_type.add]
      | cons y ys => simp [gather_type.add, vadd_comm, add_comm]
  · obtain ⟨ap, ab⟩ := a
    cases ap with
    | nil => simp at ha; simp [gather_type.add, ha]
    | cons x xs => simp [gather_type.add]
  · simp [gather_type.add]
  · intro hna hnb
    obtain ⟨ap, ab⟩ := a
    obtain ⟨bp, bb⟩ := b
    cases ap with
    | nil => simp at hna
    | cons x xs =>
      cases bp with
      | nil => simp at hnb
      | cons y ys => simp [gather_type.add]

/-- Witness for the amended claim C2 at concrete well-formed accumulators. -/
theorem gather_add_monoid_witness :
    gather_type.add { pvec := [1], bias := 2 } { pvec := [3], bias := 4 } =
      gather_type.add { pvec := [3], bias := 4 } { pvec := [1], bias := 2 } ∧
    gather_type.add
        (gather_type.add { pvec := [1], bias := 2 } { pvec := [3], bias := 4 })
        { pvec := [5], bias := 6 } =
      gather_type.add { pvec := [1], bias := 2 }
        (gather_type.add { pvec := [3], bias := 4 } { pvec := [5], bias := 6 }) ∧
    gather_type.add { pvec := [1], bias := 2 } { pvec := [], bias := 0 } =
      { pvec := [1], bias := 2 } ∧
    gather_type.add { pvec := [], bias := 0 } { pvec := [1], bias := 2 } =
      { pvec := [1], bias := 2 } ∧
    (([1] : List ℚ) ≠ [] → ([3] : List ℚ) ≠ [] →
      gather_type.add { pvec := [1], bias := 2 } { pvec := [3], bias := 4 } =
        { pvec := vadd [1] [3], bias := 2 + 4 }) :=
  gather_add_monoid { pvec := [1], bias := 2 } { pvec := [3], bias := 4 }
    { pvec := [5], bias := 6 } (by decide) (by decide)

lemma apply_nupdates_eq (vertex : vertex_type) (pmsg sum : gather_type) :
    (apply vertex pmsg sum).nupdates = vertex.data.nupdates + 1 := by
  simp only [apply]
  split
  · rfl
  · split <;> rfl

/-- Claim C6: every apply invocation increments the update counter by exactly
one, regardless of which branch fired, and over any sequence of apply steps
the counter never decreases. -/
theorem apply_increments_nupdates :
    (∀ (vertex : vertex_type) (pmsg sum : gather_type),
      (apply vertex pmsg sum).nupdates = vertex.data.nupdates + 1) ∧
    (∀ (vertex : vertex_type) (steps : List (gather_type × gather_type)),
      vertex.data.nupdates ≤
        (steps.foldl (fun v s => { v with data := apply v s.1 s.2 }) vertex).data.nupdates) := by
  refine ⟨apply_nupdates_eq, ?_⟩
  intro vertex steps
  induction steps generalizing vertex with
  | nil => exact le_refl _
  | cons s rest ih =>
    simp only [List.foldl_cons]
    refine le_trans ?_ (ih { vertex with data := apply vertex s.1 s.2 })
    simp [apply_nupdates_eq]

/-- Claim C7: when the combined accumulator has a non-empty delta, apply adds
the delta to the latent vector, increments the update counter, and leaves the
bias and every other field unchanged. -/
theorem apply_sum_branch (vertex : vertex_type) (pmsg sum : gather_type)
    (h : 0 < sum.pvec.length) :
    apply vertex pmsg sum =
      { vertex.data with pvec := vadd vertex.data.pvec sum.pvec,
                         nupdates := vertex.data.nupdates + 1 } := by
  simp [apply, h]

/-- Witness for claim C7 at a concrete vertex and accumulator. -/
theorem apply_sum_branch_witness :
    apply
      { id := 0,
        data := { nupdates := 3, pvec := [1, 2], weight := [], bias := 5 },
        num_in_edges := 0, num_out_edges := 1 }
      { pvec := [], bias := 0 } { pvec := [10, 20], bias := 7 } =
      { nupdates := 4, pvec := [11, 22], weight := [], bias := 5 } := by
  have h := apply_sum_branch
    { id := 0,
      data := { nupdates := 3, pvec := [1, 2], weight := [], bias := 5 },
      num_in_edges := 0, num_out_edges := 1 }
    { pvec := [], bias := 0 } { pvec := [10, 20], bias := 7 } (by decide)
  exact h.trans (by norm_num [vadd])

/-- Claim C1: for a left-side vertex v and an incident TRAIN edge with other
endpoint w, gather computes the prediction globalMean plus both biases plus
the dot product of the latent vectors, clamped into the configured value
bounds, sets err to prediction minus observed value, computes for each
endpoint the bias step -GAMMA*(err - LAMBDA*0) where the regularization term
multiplies the step variable that starts at zero, and the vector step
-GAMMA*(err*otherVector - LAMBDA*ownVector); it returns the accumulator
carrying v's own step and signals w with w's step when w is below the update
budget. -/
theorem gather_left_train_step (cfg : Config) (v w : vertex_type) (edge : edge_type)
    (hv : v.num_in_edges = 0)
    (hrole : edge.data.role = data_role_type.TRAIN)
    (hinc : (edge.source = v ∧ edge.target = w) ∨
            (edge.target = v ∧ edge.source = w ∧ v.id ≠ edge.source.id)) :
    (gather cfg v edge).acc =
      { pvec := smul (-cfg.GAMMA)
          (vsub (smul (specErr cfg v w edge) w.data.pvec) (smul cfg.LAMBDA v.data.pvec)),
        bias := -cfg.GAMMA * (specErr cfg v w edge - cfg.LAMBDA * 0) } ∧
    (gather cfg v edge).signal =
      (if w.data.nupdates < cfg.MAX_UPDATES then
        some (w.id,
          { pvec := smul (-cfg.GAMMA)
              (vsub (smul (specErr cfg v w edge) v.data.pvec) (smul cfg.LAMBDA w.data.pvec)),
            bias := -cfg.GAMMA * (specErr cfg v w edge - cfg.LAMBDA * 0) })
       else none) := by
  rcases hinc with ⟨hs, ht⟩ | ⟨ht, hs, hne⟩
  · subst hs
    subst ht
    constructor <;>
      simp [gather, get_other_vertex, hv, hrole, specErr, specPrediction]
  · subst ht
    subst hs
    have hb : cfg.GLOBAL_MEAN + edge.source.data.bias + edge.target.data.bias +
        dot edge.target.data.pvec edge.source.data.pvec =
        cfg.GLOBAL_MEAN + edge.target.data.bias + edge.source.data.bias +
        dot edge.target.data.pvec edge.source.data.pvec := by ring
    constructor <;>
      simp [gather, get_other_vertex, hv, hrole, hne, specErr, specPrediction, hb]

def c1cfg : Config :=
  { NLATENT := 1, LAMBDA := 0, GAMMA := 1, MAXVAL := 100, MINVAL := 0,
    STEP_DEC := 1, MAX_UPDATES := 1, GLOBAL_MEAN := 3 }

def c1v : vertex_type :=
  { id := 1, data := { nupdates := 0, pvec := [1], weight := [], bias := 1 },
    num_in_edges := 0, num_out_edges := 1 }

def c1w : vertex_type :=
  { id := 7, data := { nupdates := 0, pvec := [2], weight := [], bias := 2 },
    num_in_edges := 1, num_out_edges := 0 }

def c1edge : edge_type :=
  { source := c1v, target := c1w, data := { obs := 0, role := data_role_type.TRAIN } }

/-- Witness for claim C1 at a concrete left vertex and TRAIN edge: the
prediction is 3 + 1 + 2 + 2 = 8, the residual is 8, the returned step is
([-16], -8) and the signalled step is ([-8], -8). -/
theorem gather_left_train_step_witness :
    (gather c1cfg c1v c1edge).acc = { pvec := [-16], bias := -8 } ∧
    (gather c1cfg c1v c1edge).signal = some (7, { pvec := [-8], bias := -8 }) := by
  have h := gather_left_train_step c1cfg c1v c1w c1edge rfl rfl (Or.inl ⟨rfl, rfl⟩)
  refine ⟨h.1.trans ?_, h.2.trans ?_⟩ <;>
    norm_num [specErr, specPrediction, dot, smul, vsub, c1cfg, c1v, c1w, c1edge]

def c4cfg : Config :=
  { NLATENT := 1, LAMBDA := 0, GAMMA := 1, MAXVAL := 1, MINVAL := 0,
    STEP_DEC := 1, MAX_UPDATES := 0, GLOBAL_MEAN := 0 }

def c4v : vertex_type :=
  { id := 0, data := { nupdates := 5, pvec := [0], weight := [], bias := 0 },
    num_in_edges := 0, num_out_edges := 1 }

/-- Claim C4 as stated is false: activation seeding checks only that a vertex
has outgoing edges, so a left vertex whose update count has reached the
budget is still sent the initial activation. -/
theorem seed_ignores_budget :
    signal_left c4cfg c4v = some (0, { pvec := [0], bias := 0 }) ∧
    ¬ c4v.data.nupdates < c4cfg.MAX_UPDATES := by
  decide

/-- Claim C4 (amended): scatter signals the opposite endpoint of an edge
exactly when the edge role is TRAIN and that endpoint's update count is
below the budget, while activation seeding signals a vertex exactly when it
has at least one outgoing edge, regardless of its update count. -/
theorem scatter_and_seed_signals (cfg : Config) (v : vertex_type) (edge : edge_type) :
    ((scatter cfg v edge).isSome ↔
      (edge.data.role = data_role_type.TRAIN ∧
        (get_other_vertex edge v).data.nupdates < cfg.MAX_UPDATES)) ∧
    ((signal_left cfg v).isSome ↔ 0 < v.num_out_edges) := by
  constructor
  · simp only [scatter]
    split_ifs <;> simp_all
  · simp only [signal_left]
    split_ifs <;> simp_all

/-- Claim C5: a vertex with at least one incoming edge returns the empty
accumulator from gather for every edge, with no signal and no cache
mutation, and its init hook buffers the incoming message into the pending
slot; a vertex with no incoming edges leaves the pending slot unchanged. -/
theorem gather_right_and_init (cfg : Config) (v : vertex_type) (edge : edge_type)
    (pmsg msg : gather_type) :
    (0 < v.num_in_edges →
      gather cfg v edge =
        { acc := { pvec := [], bias := 0 }, signal := none,
          myCache := v, otherCache := get_other_vertex edge v } ∧
      init v pmsg msg = msg) ∧
    (v.num_in_edges = 0 → init v pmsg msg = pmsg) := by
  constructor
  · intro h
    have h0 : ¬ v.num_in_edges = 0 := by omega
    constructor
    · simp [gather, h0]
    · simp [init, h]
  · intro h
    simp [init, h]

def c5cfg : Config :=
  { NLATENT := 1, LAMBDA := 0, GAMMA := 1, MAXVAL := 1, MINVAL := 0,
    STEP_DEC := 1, MAX_UPDATES := 10, GLOBAL_MEAN := 0 }

def c5v : vertex_type :=
  { id := 2, data := { nupdates := 0, pvec := [0], weight := [], bias := 0 },
    num_in_edges := 1, num_out_edges := 0 }

def c5u : vertex_type :=
  { id := 3, data := { nupdates := 0, pvec := [0], weight := [], bias := 0 },
    num_in_edges := 0, num_out_edges := 1 }

def c5edge : edge_type :=
  { source := c5u, target := c5v, data := { obs := 1, role := data_role_type.TRAIN } }

/-- Witness for claim C5 at a concrete right vertex and a concrete left
vertex. -/
theorem gather_right_and_init_witness :
    (gather c5cfg c5v c5edge =
      { acc := { pvec := [], bias := 0 }, signal := none,
        myCache := c5v, otherCache := get_other_vertex c5edge c5v } ∧
      init c5v { pvec := [9], bias := 9 } { pvec := [4], bias := 4 } =
        { pvec := [4], bias := 4 }) ∧
    init c5u { pvec := [9], bias := 9 } { pvec := [4], bias := 4 } =
      { pvec := [9], bias := 9 } :=
  ⟨(gather_right_and_init c5cfg c5v c5edge
      { pvec := [9], bias := 9 } { pvec := [4], bias := 4 }).1 (by decide),
   (gather_right_and_init c5cfg c5u c5edge
      { pvec := [9], bias := 9 } { pvec := [4], bias := 4 }).2 rfl⟩

/-- Claim C3: finalize increments the call counter on every invocation; a
call whose zero-based index is odd, that is a call whose incremented counter
is even, is silently skipped, leaving GAMMA unchanged and producing no
report; on every other call it is fatal when there is no training sample,
and otherwise it reports the train RMSE as the square root of the mean
squared training error, reports the validation RMSE exactly when validation
samples exist, and multiplies GAMMA by the decay factor exactly once. -/
theorem finalize_cadence (iter : ℕ) (cfg : Config) (agg : error_aggregator) :
    ((iter + 1) % 2 = 0 →
      finalize iter cfg agg = Except.ok ((iter + 1, cfg), none)) ∧
    ((iter + 1) % 2 = 1 → agg.ntrain = 0 →
      finalize iter cfg agg = Except.error ()) ∧
    ((iter + 1) % 2 = 1 → 0 < agg.ntrain →
      finalize iter cfg agg =
        Except.ok ((iter + 1, { cfg with GAMMA := cfg.GAMMA * cfg.STEP_DEC }),
          some { train_rmse := Real.sqrt ((agg.train_error / (agg.ntrain : ℚ) : ℚ) : ℝ),
                 validation_rmse :=
                   if 0 < agg.nvalidation then
                     some (Real.sqrt ((agg.validation_error / (agg.nvalidation : ℚ) : ℚ) : ℝ))
                   else none })) := by
  refine ⟨?_, ?_, ?_⟩
  · intro h
    simp [finalize, h]
  · intro h h0
    have hne : ¬ (iter + 1) % 2 = 0 := by omega
    simp [finalize, hne, h0]
  · intro h h0
    have hne : ¬ (iter + 1) % 2 = 0 := by omega
    have h0ne : ¬ agg.ntrain = 0 := by omega
    simp [finalize, hne, h0ne]

def c3cfg : Config :=
  { NLATENT := 1, LAMBDA := 0, GAMMA := 5, MAXVAL := 10, MINVAL := 0,
    STEP_DEC := 9 / 10, MAX_UPDATES := 1, GLOBAL_MEAN := 0 }

def c3agg : error_aggregator :=
  { train_error := 4, validation_error := 0, ntrain := 1, nvalidation := 0 }

def c3aggEmpty : error_aggregator :=
  { train_error := 3, validation_error := 0, ntrain := 0, nvalidation := 0 }

/-- Witness for claim C3: a skipped call, a fatal call with zero training
samples, and a reporting call that decays GAMMA. -/
theorem finalize_cadence_witness :
    finalize 1 c3cfg c3agg = Except.ok ((2, c3cfg), none) ∧
    finalize 0 c3cfg c3aggEmpty = Except.error () ∧
    finalize 0 c3cfg c3agg =
      Except.ok ((1, { c3cfg with GAMMA := c3cfg.GAMMA * c3cfg.STEP_DEC }),
        some { train_rmse :=
                 Real.sqrt ((c3agg.train_error / (c3agg.ntrain : ℚ) : ℚ) : ℝ),
               validation_rmse :=
                 if 0 < c3agg.nvalidation then
                   some (Real.sqrt ((c3agg.validation_error / (c3agg.nvalidation : ℚ) : ℚ) : ℝ))
                 else none }) :=
  ⟨(finalize_cadence 1 c3cfg c3agg).1 (by decide),
   (finalize_cadence 0 c3cfg c3aggEmpty).2.1 (by decide) rfl,
   (finalize_cadence 0 c3cfg c3agg).2.2 (by decide) (by decide)⟩

def c9cfg : Config :=
  { NLATENT := 1, LAMBDA := 0, GAMMA := 1, MAXVAL := 1, MINVAL := 0,
    STEP_DEC := 1, MAX_UPDATES := 0, GLOBAL_MEAN := 1 }

def c9edge : edge_type :=
  { source := { id := 0, data := { nupdates := 0, pvec := [2], weight := [], bias := 1 },
                num_in_edges := 0, num_out_edges := 1 },
    target := { id := 1, data := { nupdates := 0, pvec := [3], weight := [], bias := 1 },
                num_in_edges := 1, num_out_edges := 0 },
    data := { obs := 0, role := data_role_type.PREDICT } }

/-- Claim C9: the value emitted by the prediction saver is the raw dot
product of the endpoint latent vectors; at a concrete edge it differs from
the clamped, mean-and-bias prediction used by the error extraction, and it
even exceeds the upper clamp bound, so it is not clamped. -/
theorem save_edge_raw_dot :
    (∀ (remap : Bool) (edge : edge_type),
      (save_edge remap edge).2.2 = dot edge.source.data.pvec edge.target.data.pvec) ∧
    (save_edge false c9edge).2.2 ≠ l2_prediction c9cfg c9edge ∧
    c9cfg.MAXVAL < (save_edge false c9edge).2.2 := by
  refine ⟨fun remap edge => rfl, ?_, ?_⟩ <;>
    norm_num [save_edge, l2_prediction, dot, c9cfg, c9edge]

def c10cfg : Config :=
  { NLATENT := 1, LAMBDA := 0, GAMMA := 1, MAXVAL := 1, MINVAL := 0,
    STEP_DEC := 1, MAX_UPDATES := 0, GLOBAL_MEAN := 0 }

def c10edge : edge_type :=
  { source := { id := 0, data := { nupdates := 0, pvec := [0], weight := [], bias := 0 },
                num_in_edges := 0, num_out_edges := 1 },
    target := { id := 1, data := { nupdates := 0, pvec := [0], weight := [], bias := 0 },
                num_in_edges := 1, num_out_edges := 0 },
    data := { obs := 10, role := data_role_type.TRAIN } }

/-- Claim C10: when the observed value lies inside the clamp interval, the
squared residual computed by extract_l2_error is bounded by the squared
interval width, because the prediction is clamped into the interval before
the residual is formed, so the internal assertion holds; when the observed
value lies outside the interval the bound can fail, shown at a concrete
edge. -/
theorem extract_l2_error_bound (cfg : Config) (edge : edge_type)
    (h1 : cfg.MINVAL ≤ edge.data.obs) (h2 : edge.data.obs ≤ cfg.MAXVAL) :
    extract_l2_error cfg edge ≤ (cfg.MAXVAL - cfg.MINVAL) ^ 2 ∧
    ((c10cfg.MAXVAL - c10cfg.MINVAL) ^ 2 < extract_l2_error c10cfg c10edge ∧
      ¬ (c10cfg.MINVAL ≤ c10edge.data.obs ∧ c10edge.data.obs ≤ c10cfg.MAXVAL)) := by
  constructor
  · have hmm : cfg.MINVAL ≤ cfg.MAXVAL := le_trans h1 h2
    have hlo : cfg.MINVAL ≤ l2_prediction cfg edge := le_max_left _ _
    have hhi : l2_prediction cfg edge ≤ cfg.MAXVAL := max_le hmm (min_le_left _ _)
    have key := mul_nonneg
      (by linarith :
        (0 : ℚ) ≤ cfg.MAXVAL - cfg.MINVAL - (edge.data.obs - l2_prediction cfg edge))
      (by linarith :
        (0 : ℚ) ≤ cfg.MAXVAL - cfg.MINVAL + (edge.data.obs - l2_prediction cfg edge))
    rw [extract_l2_error]
    nlinarith [key]
  · norm_num [extract_l2_error, l2_prediction, dot, c10cfg, c10edge]

def c10wedge : edge_type :=
  { source := { id := 0, data := { nupdates := 0, pvec := [0], weight := [], bias := 0 },
                num_in_edges := 0, num_out_edges := 1 },
    target := { id := 1, data := { nupdates := 0, pvec := [0], weight := [], bias := 0 },
                num_in_edges := 1, num_out_edges := 0 },
    data := { obs := 1, role := data_role_type.TRAIN } }

/-- Witness for claim C10 at a concrete edge whose observation sits at the
upper clamp bound. -/
theorem extract_l2_error_bound_witness :
    extract_l2_error c10cfg c10wedge ≤ (c10cfg.MAXVAL - c10cfg.MINVAL) ^ 2 ∧
    ((c10cfg.MAXVAL - c10cfg.MINVAL) ^ 2 < extract_l2_error c10cfg c10edge ∧
      ¬ (c10cfg.MINVAL ≤ c10edge.data.obs ∧ c10edge.data.obs ≤ c10cfg.MAXVAL)) :=
  extract_l2_error_bound c10cfg c10wedge
    (by norm_num [c10cfg, c10wedge]) (by norm_num [c10cfg, c10wedge])

/-- Claim C8 as stated is false: the empty line fails to parse as a triple,
yet the loader trips the fatal empty-line assertion instead of returning
false. -/
theorem graph_loader_empty_line_fatal :
    parseLine "".data = none ∧
    graph_loader false "ratings" "" { edges := [] } = Except.error () := by
  constructor <;> rfl

/-- Claim C8 (amended): every non-empty line that fails to parse as a triple
makes the loader return false and leave the graph unchanged, without
terminating the process; the empty line instead trips a fatal assertion. -/
theorem graph_loader_rejects_malformed (remap : Bool) (filename line : String)
    (graph : GraphState) (hne : line ≠ "") (hfail : parseLine line.data = none) :
    graph_loader remap filename line graph = Except.ok (false, graph) := by
  simp [graph_loader, hne, hfail]

/-- Witness for the amended claim C8 at a concrete malformed line. -/
theorem graph_loader_rejects_malformed_witness :
    graph_loader false "ratings" "abc" { edges := [] } =
      Except.ok (false, { edges := [] }) :=
  graph_loader_rejects_malformed false "ratings" "abc" { edges := [] }
    (by decide) (by decide)

end BiasSGD
